import Mathlib

/-
Verification development for the geoffdavis/esphome-config repository.

Two source units are modelled:
  * src/include/aqipm.h — the AQI piecewise-linear lookup functions
    calcAQIpm25 / calcAQIpm10 over the BIN_PM25 / BIN_PM10 / BIN_AQI tables.
  * src/custom_components/esphome-music-leds/esphome_music_leds.cpp — the
    MusicLeds frame pipeline (setup and ShowFrame).

Modelling conventions:
  * C float values are embedded as exact rationals (ℚ).  Every constant in
    the AQI tables and the normalisation divisor 32768 = 2^15 make the
    operations this development reasons about (comparisons against table
    constants, int16/2^15 which is exactly representable in IEEE-754)
    agree with the exact rational model.
  * IEEE-754 NaN is modelled by an extra value `FVal.nan` on which every
    ordered comparison is false, exactly as in IEEE-754 semantics used by
    the C `>=` / `<=` operators.
  * C loops over arrays become folds over `List.range`, writing with
    `List.set` (in-bounds writes only, as the C code performs).
  * The collaborators declared out of scope by the spec (FFT::t2mel and the
    three VisualEffect::visualize_* functions) are parameters of the model
    (`FrameEnv`), constrained only where the spec's contract constrains them.
-/

namespace Aqi

/-- Value of a C `float` expression as used by aqipm.h: either NaN or an
exact rational.  (Infinities behave like NaN for the comparisons below in
the sense that they match no branch; they are not modelled separately.) -/
inductive FVal where
  | nan
  | val (q : ℚ)
deriving DecidableEq

/-- Rational carried by an `FVal`; never consulted on `nan` by the functions
below, because every branch guard is false on `nan`. -/
def toQ : FVal → ℚ
  | FVal.nan => 0
  | FVal.val q => q

/-- C `<=` on floats: false whenever an operand is NaN. -/
def fle : FVal → FVal → Bool
  | FVal.val a, FVal.val b => decide (a ≤ b)
  | _, _ => false

/-- C `>=` on floats: false whenever an operand is NaN. -/
def fge : FVal → FVal → Bool
  | FVal.val a, FVal.val b => decide (b ≤ a)
  | _, _ => false

/-- C `trunc`: round toward zero. -/
def ftrunc (q : ℚ) : ℤ := if q < 0 then -⌊-q⌋ else ⌊q⌋

/-- Table `BIN_PM25[] {0, 0, 12, 35.4, 55.4, 150.4, 250.4, 350.4, 500.4}`
from aqipm.h (indices past the C array yield 0, they are never used). -/
def BIN_PM25 : ℕ → ℚ
  | 0 => 0
  | 1 => 0
  | 2 => 12
  | 3 => 35.4
  | 4 => 55.4
  | 5 => 150.4
  | 6 => 250.4
  | 7 => 350.4
  | 8 => 500.4
  | _ => 0

/-- Table `BIN_PM10[] {0, 0, 54, 154, 254, 135, 424, 504, 604}` from
aqipm.h.  Note the out-of-order entry 135 at index 5. -/
def BIN_PM10 : ℕ → ℚ
  | 0 => 0
  | 1 => 0
  | 2 => 54
  | 3 => 154
  | 4 => 254
  | 5 => 135
  | 6 => 424
  | 7 => 504
  | 8 => 604
  | _ => 0

/-- Table `BIN_AQI[] {0, 0, 50, 100, 150, 200, 300, 400, 500}` from aqipm.h. -/
def BIN_AQI : ℕ → ℚ
  | 0 => 0
  | 1 => 0
  | 2 => 50
  | 3 => 100
  | 4 => 150
  | 5 => 200
  | 6 => 300
  | 7 => 400
  | 8 => 500
  | _ => 0

/-- Guard of the k-th branch of calcAQIpm25:
`pm25 >= BIN_PM25[k] && pm25 <= BIN_PM25[k+1]`. -/
def pm25guard (k : ℕ) (v : FVal) : Bool :=
  fge v (FVal.val (BIN_PM25 k)) && fle v (FVal.val (BIN_PM25 (k + 1)))

/-- Guard of the k-th branch of calcAQIpm10:
`pm10 >= BIN_PM10[k] && pm10 <= BIN_PM10[k+1]`. -/
def pm10guard (k : ℕ) (v : FVal) : Bool :=
  fge v (FVal.val (BIN_PM10 k)) && fle v (FVal.val (BIN_PM10 (k + 1)))

/-- Body of the k-th branch of calcAQIpm25:
`((BIN_AQI[k+1]-BIN_AQI[k]) / (BIN_PM25[k+1]-BIN_PM25[k])) * (pm25-BIN_PM25[k]) + BIN_AQI[k]`. -/
def pm25seg (k : ℕ) (x : ℚ) : ℚ :=
  ((BIN_AQI (k + 1) - BIN_AQI k) / (BIN_PM25 (k + 1) - BIN_PM25 k)) * (x - BIN_PM25 k) + BIN_AQI k

/-- Body of the k-th branch of calcAQIpm10. -/
def pm10seg (k : ℕ) (x : ℚ) : ℚ :=
  ((BIN_AQI (k + 1) - BIN_AQI k) / (BIN_PM10 (k + 1) - BIN_PM10 k)) * (x - BIN_PM10 k) + BIN_AQI k

/-- `int calcAQIpm25(float pm25)` from aqipm.h: seven guarded assignments to
`aqipm25` (initialised 0), then `return trunc(aqipm25)`. -/
def calcAQIpm25 (pm25 : FVal) : ℤ :=
  if pm25guard 1 pm25 then ftrunc (pm25seg 1 (toQ pm25))
  else if pm25guard 2 pm25 then ftrunc (pm25seg 2 (toQ pm25))
  else if pm25guard 3 pm25 then ftrunc (pm25seg 3 (toQ pm25))
  else if pm25guard 4 pm25 then ftrunc (pm25seg 4 (toQ pm25))
  else if pm25guard 5 pm25 then ftrunc (pm25seg 5 (toQ pm25))
  else if pm25guard 6 pm25 then ftrunc (pm25seg 6 (toQ pm25))
  else if pm25guard 7 pm25 then ftrunc (pm25seg 7 (toQ pm25))
  else ftrunc 0

/-- `int calcAQIpm10(float pm10)` from aqipm.h: seven guarded assignments to
`aqipm10` (initialised 0), then `return trunc(aqipm10)`. -/
def calcAQIpm10 (pm10 : FVal) : ℤ :=
  if pm10guard 1 pm10 then ftrunc (pm10seg 1 (toQ pm10))
  else if pm10guard 2 pm10 then ftrunc (pm10seg 2 (toQ pm10))
  else if pm10guard 3 pm10 then ftrunc (pm10seg 3 (toQ pm10))
  else if pm10guard 4 pm10 then ftrunc (pm10seg 4 (toQ pm10))
  else if pm10guard 5 pm10 then ftrunc (pm10seg 5 (toQ pm10))
  else if pm10guard 6 pm10 then ftrunc (pm10seg 6 (toQ pm10))
  else if pm10guard 7 pm10 then ftrunc (pm10seg 7 (toQ pm10))
  else ftrunc 0

end Aqi

namespace MusicLeds

/-- One FastLED-style pixel of the frame buffer `CRGB *physic_leds`. -/
structure CRGB where
  r : ℕ
  g : ℕ
  b : ℕ
deriving DecidableEq

/-- One esphome `Color` as written into the addressable light. -/
structure Color where
  r : ℕ
  g : ℕ
  b : ℕ
  w : ℕ
deriving DecidableEq

/-- The `PLAYMODE` selector.  The C++ enum has exactly the three enumerators
MODE_SCROLL, MODE_ENERGY and MODE_SPECTRUM; `MODE_OTHER v` stands for any
other underlying integer value a caller may pass (a C++ enum admits them),
which matches no `case` of the `switch` in ShowFrame. -/
inductive PLAYMODE where
  | MODE_SCROLL
  | MODE_ENERGY
  | MODE_SPECTRUM
  | MODE_OTHER (v : ℤ)
deriving DecidableEq

/-- Compile-time configuration constants from the component header
(BUFFER_SIZE, N_ROLLING_HISTORY, N_MEL_BIN, SAMPLE_RATE) together with the
per-instance pixel count `n_pixels_`. -/
structure Params where
  BUFFER_SIZE : ℕ
  N_ROLLING_HISTORY : ℕ
  N_MEL_BIN : ℕ
  SAMPLE_RATE : ℕ
  n_pixels : ℕ

/-- External collaborators of ShowFrame, specified contract-only by the
spec: `FFT::t2mel` and the three `VisualEffect::visualize_*` functions.
Each visualizer receives the mel vector and the current contents of
`physic_leds` and yields the new contents of that caller-owned buffer. -/
structure FrameEnv where
  t2mel : List ℚ → List ℚ
  visualize_scroll : List ℚ → List CRGB → List CRGB
  visualize_energy : List ℚ → List CRGB → List CRGB
  visualize_spectrum : List ℚ → List CRGB → List CRGB

/-- Per-instance member state of a MusicLeds object: the rolling sample
buffer `y_data` (length N_ROLLING_HISTORY * BUFFER_SIZE) and the pixel
frame `physic_leds` (length n_pixels_).  Modelled from the spec: the class
header is not part of the excerpt; `y_data` and `physic_leds` are instance
members there (`physic_leds` is allocated per instance in the constructor,
and the spec states the rolling buffer is owned per instance). -/
structure MusicLedsFields where
  y_data : List ℚ
  physic_leds : List CRGB
deriving DecidableEq

/-- Function-local `static` variables of `MusicLeds::ShowFrame` in the
source: `static float mel_data[N_MEL_BIN]`, `static unsigned int
bytes_read` and `static int ii`.  In C++ these are a single storage shared
by every MusicLeds instance, so they live outside `MusicLedsFields`. -/
structure ShowFrameStatics where
  mel_data : List ℚ
  bytes_read : ℕ
  ii : ℕ
deriving DecidableEq

/-- Normalisation `i2s_buf[i] / 32768.0` applied to each raw int16 sample.
For |s| ≤ 2^15 the IEEE-754 quotient s/2^15 is exact, so the rational
value is the bit-for-bit float value. -/
def normalizeSample (s : ℤ) : ℚ := (s : ℚ) / 32768

/-- One iteration of the shift loop:
`memcpy(y_data + i*BUFFER_SIZE, y_data + (i+1)*BUFFER_SIZE, sizeof(float)*BUFFER_SIZE)`,
element by element (source and destination do not overlap for i ≥ 0). -/
def memcpyWindow (W i : ℕ) (y : List ℚ) : List ℚ :=
  (List.range W).foldl (fun acc j => acc.set (i * W + j) (acc.getD ((i + 1) * W + j) 0)) y

/-- First `j` iterations of the element-wise memcpy of `memcpyWindow`
(used to state its loop invariant; `memcpyWindow W i = memcpyUpTo W i W`). -/
def memcpyUpTo (W i j : ℕ) (y : List ℚ) : List ℚ :=
  (List.range j).foldl (fun acc j' => acc.set (i * W + j') (acc.getD ((i + 1) * W + j') 0)) y

/-- The shift loop of ShowFrame:
`for (int i = 0; i < N_ROLLING_HISTORY - 1; i++) memcpy(...)`. -/
def shiftRolling (W H : ℕ) (y : List ℚ) : List ℚ :=
  (List.range (H - 1)).foldl (fun acc i => memcpyWindow W i acc) y

/-- First `m` iterations of the shift loop (its loop invariant;
`shiftRolling W H = shiftUpTo W (H - 1)`). -/
def shiftUpTo (W m : ℕ) (y : List ℚ) : List ℚ :=
  (List.range m).foldl (fun acc i => memcpyWindow W i acc) y

/-- Loop writing `v i` into position `base + i` of `l` for i = 0..n-1, the
shape of both the ingest loop and the output copy loop. -/
def setRange {α : Type} (base : ℕ) (v : ℕ → α) (n : ℕ) (l : List α) : List α :=
  (List.range n).foldl (fun acc i => acc.set (base + i) (v i)) l

/-- The ingest loop of ShowFrame:
`for i < BUFFER_SIZE: y_data[BUFFER_SIZE*(N_ROLLING_HISTORY-1)+i] = i2s_buf[i]/32768.0`. -/
def ingestWindow (W H : ℕ) (i2s_buf : List ℤ) (y : List ℚ) : List ℚ :=
  setRange (W * (H - 1)) (fun i => normalizeSample (i2s_buf.getD i 0)) W y

/-- The `switch(CurrentMode)` of ShowFrame: one visualizer per recognised
enumerator, fall-through (no default case, `physic_leds` untouched) for any
other value. -/
def dispatchMode (env : FrameEnv) (mode : PLAYMODE) (mel : List ℚ) (leds : List CRGB) :
    List CRGB :=
  match mode with
  | PLAYMODE.MODE_SCROLL => env.visualize_scroll mel leds
  | PLAYMODE.MODE_ENERGY => env.visualize_energy mel leds
  | PLAYMODE.MODE_SPECTRUM => env.visualize_spectrum mel leds
  | PLAYMODE.MODE_OTHER _ => leds

/-- Body of the output copy loop: `Color c; c.r = physic_leds[i].r; c.g =
...; c.b = ...; c.w = 0; (*p_it)[i] = c;`. -/
def copyColor (c : CRGB) : Color := { r := c.r, g := c.g, b := c.b, w := 0 }

/-- The output copy loop of ShowFrame:
`for (int i = 0; i < p_it->size(); i++) (*p_it)[i] = c;`. -/
def copyOut (leds : List CRGB) (p_it : List Color) : List Color :=
  setRange 0 (fun i => copyColor (leds.getD i { r := 0, g := 0, b := 0 })) p_it.length p_it

/-- Observable step events of one ShowFrame invocation, in source order. -/
inductive FrameEvent where
  | evShiftHistory
  | evI2sRead (bytes : ℕ) (blockForever : Bool)
  | evNormalizeIngest
  | evT2mel
  | evDispatch (mode : PLAYMODE)
  | evCopyOut
deriving DecidableEq

/-- Result of one ShowFrame invocation: updated members, updated statics,
the overwritten addressable-light contents, and the step trace. -/
structure FrameResult where
  fields : MusicLedsFields
  statics : ShowFrameStatics
  out : List Color
  trace : List FrameEvent
deriving DecidableEq

/-- `MusicLeds::ShowFrame(PLAYMODE CurrentMode, light::AddressableLight *p_it)`.
`i2s_buf` is the int16 window delivered by the blocking
`i2s_read(MLED_I2S_NUM, i2s_buf, BUFFER_SIZE * 2, &bytes_read, portMAX_DELAY)`;
with an indefinite timeout the call returns only once all BUFFER_SIZE * 2
bytes are read, so `bytes_read` becomes BUFFER_SIZE * 2.  `ii` is bumped
once per sample of the ingest loop, hence by BUFFER_SIZE per frame (the
periodic log it gates is observability only and carries no state). -/
def ShowFrame (P : Params) (env : FrameEnv) (CurrentMode : PLAYMODE)
    (i2s_buf : List ℤ) (st : MusicLedsFields) (sf : ShowFrameStatics)
    (p_it : List Color) : FrameResult :=
  let W := P.BUFFER_SIZE
  let H := P.N_ROLLING_HISTORY
  let y1 := shiftRolling W H st.y_data
  let bytes_read1 := W * 2
  let y2 := ingestWindow W H i2s_buf y1
  let ii1 := sf.ii + W
  let mel1 := env.t2mel y2
  let leds1 := dispatchMode env CurrentMode mel1 st.physic_leds
  let out1 := copyOut leds1 p_it
  { fields := { y_data := y2, physic_leds := leds1 }
    statics := { mel_data := mel1, bytes_read := bytes_read1, ii := ii1 }
    out := out1
    trace := [FrameEvent.evShiftHistory, FrameEvent.evI2sRead (W * 2) true,
              FrameEvent.evNormalizeIngest, FrameEvent.evT2mel,
              FrameEvent.evDispatch CurrentMode, FrameEvent.evCopyOut] }

/-- Capture-peripheral operations issued by `MusicLeds::setup`, in order. -/
inductive I2sOp where
  | opInstallDriver
  | opSetPin (ws dataIn : ℤ)
  | opStop
  | opStart
  | opLogSetup (n_pixels : ℕ) (ws dataIn : ℤ)
deriving DecidableEq

/-- `MusicLeds::setup()`: `i2s_driver_install; i2s_set_pin; i2s_stop;
i2s_start; ESP_LOGI(...)`. -/
def setup (n_pixels : ℕ) (ws dataIn : ℤ) : List I2sOp :=
  [I2sOp.opInstallDriver, I2sOp.opSetPin ws dataIn, I2sOp.opStop, I2sOp.opStart,
   I2sOp.opLogSetup n_pixels ws dataIn]

/-- World with two MusicLeds instances.  The member fields are one copy per
instance; the function-local statics of ShowFrame are one shared copy, as
C++ gives function-local `static` storage class-wide, not per-object. -/
structure GlobalState where
  instA : MusicLedsFields
  instB : MusicLedsFields
  statics : ShowFrameStatics
deriving DecidableEq

/-- Invoke ShowFrame on instance A: A's members and the shared statics are
updated, B's members are untouched. -/
def stepOnA (P : Params) (env : FrameEnv) (mode : PLAYMODE) (i2s_buf : List ℤ)
    (p_it : List Color) (g : GlobalState) : GlobalState :=
  let r := ShowFrame P env mode i2s_buf g.instA g.statics p_it
  { g with instA := r.fields, statics := r.statics }

/-- Invoke ShowFrame on instance B. -/
def stepOnB (P : Params) (env : FrameEnv) (mode : PLAYMODE) (i2s_buf : List ℤ)
    (p_it : List Color) (g : GlobalState) : GlobalState :=
  let r := ShowFrame P env mode i2s_buf g.instB g.statics p_it
  { g with instB := r.fields, statics := r.statics }

/-- The "pipeline state" named by the spec for one instance: sample buffer,
pixel buffer, mel-energy vector and diagnostic sample counter.  The latter
two are read from the shared statics, because those are the storage an
invocation on this instance actually uses. -/
def pipelineView (f : MusicLedsFields) (s : ShowFrameStatics) :
    List ℚ × List CRGB × List ℚ × ℕ :=
  (f.y_data, f.physic_leds, s.mel_data, s.ii)

/-- Concrete parameters for witness instantiations: one-sample window, one
history slot, one mel bin, one pixel. -/
def P1 : Params :=
  { BUFFER_SIZE := 1, N_ROLLING_HISTORY := 1, N_MEL_BIN := 1, SAMPLE_RATE := 1, n_pixels := 1 }

/-- Concrete collaborator set for witness instantiations: constant mel
vector, identity visualizers (they satisfy the spec's length contract). -/
def envC : FrameEnv :=
  { t2mel := fun _ => [1]
    visualize_scroll := fun _ leds => leds
    visualize_energy := fun _ leds => leds
    visualize_spectrum := fun _ leds => leds }

/-- Second collaborator set: same transform, different visualizers. -/
def envD : FrameEnv :=
  { t2mel := fun _ => [1]
    visualize_scroll := fun _ _ => []
    visualize_energy := fun _ _ => []
    visualize_spectrum := fun _ _ => [] }

/-- Concrete member state for witness instantiations. -/
def st1 : MusicLedsFields := { y_data := [0], physic_leds := [{ r := 1, g := 2, b := 3 }] }

/-- Concrete statics for witness instantiations. -/
def sf1 : ShowFrameStatics := { mel_data := [7], bytes_read := 0, ii := 0 }

/-- Concrete two-instance world for the shared-statics counterexample. -/
def g1 : GlobalState := { instA := st1, instB := st1, statics := sf1 }

/-- Concrete one-pixel addressable-light contents for witness instantiations. -/
def pOut1 : List Color := [{ r := 9, g := 9, b := 9, w := 9 }]

/-- Second one-pixel addressable-light contents, different prior values. -/
def pOut2 : List Color := [{ r := 4, g := 5, b := 6, w := 7 }]

end MusicLeds

namespace MusicLeds

theorem setRange_succ {α : Type} (base : ℕ) (v : ℕ → α) (m : ℕ) (l : List α) :
    setRange base v (m + 1) l = (setRange base v m l).set (base + m) (v m) := by
  simp [setRange, List.range_succ]

theorem setRange_length {α : Type} (base : ℕ) (v : ℕ → α) (n : ℕ) (l : List α) :
    (setRange base v n l).length = l.length := by
  induction n with
  | zero => rfl
  | succ m ih => rw [setRange_succ, List.length_set, ih]

theorem setRange_getElem? {α : Type} (base : ℕ) (v : ℕ → α) (n : ℕ) (l : List α) (k : ℕ) :
    (setRange base v n l)[k]? =
      if base ≤ k ∧ k < base + n ∧ k < l.length then some (v (k - base)) else l[k]? := by
  induction n with
  | zero =>
      rw [setRange]
      simp only [List.range_zero, List.foldl_nil]
      rw [if_neg (by omega)]
  | succ m ih =>
      rw [setRange_succ, List.getElem?_set, setRange_length]
      by_cases hk : base + m = k
      · subst hk
        rw [if_pos rfl]
        by_cases hl : base + m < l.length
        · rw [if_pos hl, if_pos ⟨by omega, by omega, hl⟩, Nat.add_sub_cancel_left]
        · rw [if_neg hl, if_neg (by omega), List.getElem?_eq_none (by omega)]
      · rw [if_neg hk, ih]
        by_cases h1 : base ≤ k ∧ k < base + m ∧ k < l.length
        · rw [if_pos h1, if_pos ⟨h1.1, by omega, h1.2.2⟩]
        · rw [if_neg h1, if_neg (by omega)]

theorem memcpyUpTo_succ (W i j : ℕ) (y : List ℚ) :
    memcpyUpTo W i (j + 1) y =
      (memcpyUpTo W i j y).set (i * W + j) ((memcpyUpTo W i j y).getD ((i + 1) * W + j) 0) := by
  simp [memcpyUpTo, List.range_succ]

theorem memcpyUpTo_length (W i j : ℕ) (y : List ℚ) :
    (memcpyUpTo W i j y).length = y.length := by
  induction j with
  | zero => rfl
  | succ m ih => rw [memcpyUpTo_succ, List.length_set, ih]

theorem memcpyUpTo_getElem? (W i : ℕ) (y : List ℚ) (hlen : (i + 2) * W ≤ y.length) :
    ∀ j, j ≤ W → ∀ k,
      (memcpyUpTo W i j y)[k]? =
        if i * W ≤ k ∧ k < i * W + j then y[k + W]? else y[k]? := by
  have e1 : (i + 1) * W = i * W + W := by ring
  have e2 : (i + 2) * W = i * W + 2 * W := by ring
  intro j
  induction j with
  | zero =>
      intro _ k
      rw [memcpyUpTo]
      simp only [List.range_zero, List.foldl_nil]
      rw [if_neg (by omega)]
  | succ m ih =>
      intro hm1 k
      have hm : m ≤ W := by omega
      have hb : (i + 1) * W + m < y.length := by omega
      have hread : (memcpyUpTo W i m y).getD ((i + 1) * W + m) 0 = y[(i + 1) * W + m] := by
        rw [List.getD_eq_getElem?_getD, ih hm ((i + 1) * W + m), if_neg (by omega),
          List.getElem?_eq_getElem hb, Option.getD_some]
      rw [memcpyUpTo_succ, List.getElem?_set, memcpyUpTo_length]
      by_cases hk : i * W + m = k
      · subst hk
        rw [if_pos rfl, if_pos (by omega), if_pos ⟨by omega, by omega⟩, hread]
        have e3 : i * W + m + W = (i + 1) * W + m := by ring
        rw [e3, List.getElem?_eq_getElem hb]
      · rw [if_neg hk, ih hm k]
        by_cases h1 : i * W ≤ k ∧ k < i * W + m
        · rw [if_pos h1, if_pos ⟨h1.1, by omega⟩]
        · rw [if_neg h1, if_neg (by omega)]

theorem memcpyWindow_eq_upTo (W i : ℕ) (y : List ℚ) :
    memcpyWindow W i y = memcpyUpTo W i W y := rfl

theorem memcpyWindow_length (W i : ℕ) (y : List ℚ) :
    (memcpyWindow W i y).length = y.length :=
  memcpyUpTo_length W i W y

theorem memcpyWindow_getElem? (W i : ℕ) (y : List ℚ) (hlen : (i + 2) * W ≤ y.length) (k : ℕ) :
    (memcpyWindow W i y)[k]? =
      if i * W ≤ k ∧ k < (i + 1) * W then y[k + W]? else y[k]? := by
  have e1 : (i + 1) * W = i * W + W := by ring
  rw [memcpyWindow_eq_upTo, memcpyUpTo_getElem? W i y hlen W (le_refl W) k, e1]

theorem shiftUpTo_succ (W m : ℕ) (y : List ℚ) :
    shiftUpTo W (m + 1) y = memcpyWindow W m (shiftUpTo W m y) := by
  simp [shiftUpTo, List.range_succ]

theorem shiftUpTo_length (W m : ℕ) (y : List ℚ) :
    (shiftUpTo W m y).length = y.length := by
  induction m with
  | zero => rfl
  | succ n ih => rw [shiftUpTo_succ, memcpyWindow_length, ih]

theorem shiftUpTo_getElem? (W H : ℕ) (y : List ℚ) (hlen : y.length = H * W) :
    ∀ m, m + 1 ≤ H → ∀ k,
      (shiftUpTo W m y)[k]? = if k < m * W then y[k + W]? else y[k]? := by
  intro m
  induction m with
  | zero =>
      intro _ k
      rw [shiftUpTo]
      simp only [List.range_zero, List.foldl_nil]
      rw [if_neg (by omega)]
  | succ n ih =>
      intro hn1 k
      have hlen2 : (n + 2) * W ≤ (shiftUpTo W n y).length := by
        rw [shiftUpTo_length, hlen]
        exact Nat.mul_le_mul_right W (by omega)
      have e1 : (n + 1) * W = n * W + W := by ring
      rw [shiftUpTo_succ, memcpyWindow_getElem? W n (shiftUpTo W n y) hlen2 k]
      by_cases h1 : n * W ≤ k ∧ k < (n + 1) * W
      · rw [if_pos h1, ih (by omega) (k + W), if_neg (by omega), if_pos (by omega)]
      · rw [if_neg h1, ih (by omega) k]
        by_cases h2 : k < n * W
        · rw [if_pos h2, if_pos (by omega)]
        · rw [if_neg h2, if_neg (by omega)]

theorem shiftRolling_eq_upTo (W H : ℕ) (y : List ℚ) :
    shiftRolling W H y = shiftUpTo W (H - 1) y := rfl

theorem shiftRolling_length (W H : ℕ) (y : List ℚ) :
    (shiftRolling W H y).length = y.length :=
  shiftUpTo_length W (H - 1) y

theorem shiftRolling_getElem? (W H : ℕ) (y : List ℚ) (hlen : y.length = H * W)
    (hH : 0 < H) (k : ℕ) :
    (shiftRolling W H y)[k]? = if k < (H - 1) * W then y[k + W]? else y[k]? := by
  rw [shiftRolling_eq_upTo]
  exact shiftUpTo_getElem? W H y hlen (H - 1) (by omega) k

theorem ingestWindow_length (W H : ℕ) (buf : List ℤ) (y : List ℚ) :
    (ingestWindow W H buf y).length = y.length :=
  setRange_length _ _ _ _

theorem ingestWindow_getElem? (W H : ℕ) (buf : List ℤ) (y : List ℚ) (k : ℕ) :
    (ingestWindow W H buf y)[k]? =
      if W * (H - 1) ≤ k ∧ k < W * (H - 1) + W ∧ k < y.length then
        some (normalizeSample (buf.getD (k - W * (H - 1)) 0))
      else y[k]? :=
  setRange_getElem? _ _ _ _ _

theorem copyOut_length (leds : List CRGB) (p : List Color) :
    (copyOut leds p).length = p.length :=
  setRange_length _ _ _ _

theorem copyOut_getElem? (leds : List CRGB) (p : List Color) (k : ℕ) :
    (copyOut leds p)[k]? =
      if k < p.length then some (copyColor (leds.getD k { r := 0, g := 0, b := 0 }))
      else none := by
  rw [copyOut, setRange_getElem?]
  by_cases h : k < p.length
  · rw [if_pos ⟨by omega, by omega, h⟩, if_pos h, Nat.sub_zero]
  · rw [if_neg (by omega), if_neg h, List.getElem?_eq_none (by omega)]

theorem copyOut_congr (leds : List CRGB) (p q : List Color) (h : p.length = q.length) :
    copyOut leds p = copyOut leds q := by
  apply List.ext_getElem?
  intro n
  rw [copyOut_getElem?, copyOut_getElem?, h]

end MusicLeds

namespace Aqi

theorem ftrunc_zero : ftrunc 0 = 0 := by
  rw [ftrunc, if_neg (by norm_num)]
  exact Int.floor_zero

theorem pm25guard_val (k : ℕ) (x : ℚ) :
    pm25guard k (FVal.val x) = true ↔ BIN_PM25 k ≤ x ∧ x ≤ BIN_PM25 (k + 1) := by
  simp [pm25guard, fge, fle]

theorem pm10guard_val (k : ℕ) (x : ℚ) :
    pm10guard k (FVal.val x) = true ↔ BIN_PM10 k ≤ x ∧ x ≤ BIN_PM10 (k + 1) := by
  simp [pm10guard, fge, fle]

theorem pm25guard_nan (k : ℕ) : pm25guard k FVal.nan = false := rfl

theorem pm10guard_nan (k : ℕ) : pm10guard k FVal.nan = false := rfl

theorem pm25_out_guards (x : ℚ) (hx : x < 0 ∨ 500.4 < x) :
    ∀ k, 1 ≤ k → k ≤ 7 → pm25guard k (FVal.val x) = false := by
  intro k hk1 hk7
  rw [← Bool.not_eq_true, pm25guard_val]
  rintro ⟨hlo, hhi⟩
  interval_cases k <;> norm_num [BIN_PM25] at hlo hhi <;>
    rcases hx with hx | hx <;> linarith

theorem pm10_out_guards (x : ℚ) (hx : x < 0 ∨ 604 < x) :
    ∀ k, 1 ≤ k → k ≤ 7 → pm10guard k (FVal.val x) = false := by
  intro k hk1 hk7
  rw [← Bool.not_eq_true, pm10guard_val]
  rintro ⟨hlo, hhi⟩
  interval_cases k <;> norm_num [BIN_PM10] at hlo hhi <;>
    rcases hx with hx | hx <;> linarith

theorem pm25_out_zero (x : ℚ) (hx : x < 0 ∨ 500.4 < x) :
    calcAQIpm25 (FVal.val x) = 0 := by
  have hg := pm25_out_guards x hx
  rw [calcAQIpm25,
    if_neg (by simp [hg 1 (by omega) (by omega)]),
    if_neg (by simp [hg 2 (by omega) (by omega)]),
    if_neg (by simp [hg 3 (by omega) (by omega)]),
    if_neg (by simp [hg 4 (by omega) (by omega)]),
    if_neg (by simp [hg 5 (by omega) (by omega)]),
    if_neg (by simp [hg 6 (by omega) (by omega)]),
    if_neg (by simp [hg 7 (by omega) (by omega)])]
  exact ftrunc_zero

theorem pm10_out_zero (x : ℚ) (hx : x < 0 ∨ 604 < x) :
    calcAQIpm10 (FVal.val x) = 0 := by
  have hg := pm10_out_guards x hx
  rw [calcAQIpm10,
    if_neg (by simp [hg 1 (by omega) (by omega)]),
    if_neg (by simp [hg 2 (by omega) (by omega)]),
    if_neg (by simp [hg 3 (by omega) (by omega)]),
    if_neg (by simp [hg 4 (by omega) (by omega)]),
    if_neg (by simp [hg 5 (by omega) (by omega)]),
    if_neg (by simp [hg 6 (by omega) (by omega)]),
    if_neg (by simp [hg 7 (by omega) (by omega)])]
  exact ftrunc_zero

theorem calcAQIpm25_nan : calcAQIpm25 FVal.nan = 0 := by
  rw [calcAQIpm25]
  rw [if_neg (by simp [pm25guard_nan]), if_neg (by simp [pm25guard_nan]),
    if_neg (by simp [pm25guard_nan]), if_neg (by simp [pm25guard_nan]),
    if_neg (by simp [pm25guard_nan]), if_neg (by simp [pm25guard_nan]),
    if_neg (by simp [pm25guard_nan])]
  exact ftrunc_zero

theorem calcAQIpm10_nan : calcAQIpm10 FVal.nan = 0 := by
  rw [calcAQIpm10]
  rw [if_neg (by simp [pm10guard_nan]), if_neg (by simp [pm10guard_nan]),
    if_neg (by simp [pm10guard_nan]), if_neg (by simp [pm10guard_nan]),
    if_neg (by simp [pm10guard_nan]), if_neg (by simp [pm10guard_nan]),
    if_neg (by simp [pm10guard_nan])]
  exact ftrunc_zero

theorem pm10guard4_false (v : FVal) : pm10guard 4 v = false := by
  cases v with
  | nan => exact pm10guard_nan 4
  | val x =>
      rw [← Bool.not_eq_true, pm10guard_val]
      rintro ⟨hlo, hhi⟩
      norm_num [BIN_PM10] at hlo hhi
      linarith

theorem calcAQIpm10_over_254_424 (x : ℚ) (h1 : 254 < x) (h2 : x ≤ 424) :
    calcAQIpm10 (FVal.val x) = ftrunc (pm10seg 5 x) := by
  have g1 : pm10guard 1 (FVal.val x) = false := by
    rw [← Bool.not_eq_true, pm10guard_val]
    rintro ⟨hlo, hhi⟩
    norm_num [BIN_PM10] at hlo hhi
    linarith
  have g2 : pm10guard 2 (FVal.val x) = false := by
    rw [← Bool.not_eq_true, pm10guard_val]
    rintro ⟨hlo, hhi⟩
    norm_num [BIN_PM10] at hlo hhi
    linarith
  have g3 : pm10guard 3 (FVal.val x) = false := by
    rw [← Bool.not_eq_true, pm10guard_val]
    rintro ⟨hlo, hhi⟩
    norm_num [BIN_PM10] at hlo hhi
    linarith
  have g5 : pm10guard 5 (FVal.val x) = true := by
    rw [pm10guard_val]
    norm_num [BIN_PM10]
    constructor <;> linarith
  rw [calcAQIpm10, if_neg (by simp [g1]), if_neg (by simp [g2]), if_neg (by simp [g3]),
    if_neg (by simp [pm10guard4_false]), if_pos (by simp [g5])]
  rfl

theorem calcAQIpm10_at_600 : calcAQIpm10 (FVal.val 600) = 496 := by
  have g7 : pm10guard 7 (FVal.val 600) = true := by
    rw [pm10guard_val]
    norm_num [BIN_PM10]
  rw [calcAQIpm10,
    if_neg (by rw [pm10guard_val]; norm_num [BIN_PM10]),
    if_neg (by rw [pm10guard_val]; norm_num [BIN_PM10]),
    if_neg (by rw [pm10guard_val]; norm_num [BIN_PM10]),
    if_neg (by rw [pm10guard_val]; norm_num [BIN_PM10]),
    if_neg (by rw [pm10guard_val]; norm_num [BIN_PM10]),
    if_neg (by rw [pm10guard_val]; norm_num [BIN_PM10]),
    if_pos (by simp [g7])]
  have hv : pm10seg 7 (toQ (FVal.val 600)) = 496 := by
    norm_num [pm10seg, toQ, BIN_PM10, BIN_AQI]
  rw [hv, ftrunc, if_neg (by norm_num)]
  norm_num

theorem calcAQIpm10_at_605 : calcAQIpm10 (FVal.val 605) = 0 :=
  pm10_out_zero 605 (Or.inr (by norm_num))

end Aqi


namespace MusicLeds

/-- C1: every ShowFrame shifts the rolling sample buffer left by exactly
BUFFER_SIZE samples and appends the newly captured, normalized window: the
buffer still holds exactly N_ROLLING_HISTORY * BUFFER_SIZE samples,
positions [0, (H-1)*W) hold exactly what was previously at [W, H*W), and
the last W positions equal the normalized new window exactly. -/
theorem showFrame_rolling_buffer (P : Params) (env : FrameEnv) (mode : PLAYMODE)
    (buf : List ℤ) (st : MusicLedsFields) (sf : ShowFrameStatics) (p_it : List Color)
    (hH : 0 < P.N_ROLLING_HISTORY)
    (hy : st.y_data.length = P.N_ROLLING_HISTORY * P.BUFFER_SIZE)
    (hb : buf.length = P.BUFFER_SIZE) :
    ((ShowFrame P env mode buf st sf p_it).fields.y_data).length
        = P.N_ROLLING_HISTORY * P.BUFFER_SIZE ∧
    (∀ k, k < (P.N_ROLLING_HISTORY - 1) * P.BUFFER_SIZE →
      ((ShowFrame P env mode buf st sf p_it).fields.y_data)[k]?
        = st.y_data[k + P.BUFFER_SIZE]?) ∧
    (∀ i, i < P.BUFFER_SIZE →
      ((ShowFrame P env mode buf st sf p_it).fields.y_data)[(P.N_ROLLING_HISTORY - 1) * P.BUFFER_SIZE + i]?
        = (buf.map normalizeSample)[i]?) := by
  have hyd : (ShowFrame P env mode buf st sf p_it).fields.y_data
      = ingestWindow P.BUFFER_SIZE P.N_ROLLING_HISTORY buf
          (shiftRolling P.BUFFER_SIZE P.N_ROLLING_HISTORY st.y_data) := rfl
  have hs_len : (shiftRolling P.BUFFER_SIZE P.N_ROLLING_HISTORY st.y_data).length
      = P.N_ROLLING_HISTORY * P.BUFFER_SIZE := by
    rw [shiftRolling_length, hy]
  have e1 : P.BUFFER_SIZE * (P.N_ROLLING_HISTORY - 1)
      = (P.N_ROLLING_HISTORY - 1) * P.BUFFER_SIZE := Nat.mul_comm _ _
  have e2 : (P.N_ROLLING_HISTORY - 1) * P.BUFFER_SIZE + P.BUFFER_SIZE
      = P.N_ROLLING_HISTORY * P.BUFFER_SIZE := by
    obtain ⟨n, hn⟩ : ∃ n, P.N_ROLLING_HISTORY = n + 1 := ⟨P.N_ROLLING_HISTORY - 1, by omega⟩
    rw [hn, Nat.add_sub_cancel]
    ring
  refine ⟨?_, ?_, ?_⟩
  · rw [hyd, ingestWindow_length, hs_len]
  · intro k hk
    rw [hyd, ingestWindow_getElem?, if_neg (by omega),
      shiftRolling_getElem? P.BUFFER_SIZE P.N_ROLLING_HISTORY st.y_data hy hH k,
      if_pos hk]
  · intro i hi
    rw [hyd, ingestWindow_getElem?,
      if_pos ⟨by omega, by omega, by rw [hs_len]; omega⟩,
      show (P.N_ROLLING_HISTORY - 1) * P.BUFFER_SIZE + i
          - P.BUFFER_SIZE * (P.N_ROLLING_HISTORY - 1) = i from by omega,
      List.getElem?_map, List.getElem?_eq_getElem (show i < buf.length from by omega),
      Option.map_some', List.getD_eq_getElem?_getD,
      List.getElem?_eq_getElem (show i < buf.length from by omega), Option.getD_some]

/-- Witness for C1 at BUFFER_SIZE = 1, N_ROLLING_HISTORY = 1, a one-sample
window. -/
theorem showFrame_rolling_buffer_witness :
    0 < P1.N_ROLLING_HISTORY ∧
    st1.y_data.length = P1.N_ROLLING_HISTORY * P1.BUFFER_SIZE ∧
    ([(3 : ℤ)] : List ℤ).length = P1.BUFFER_SIZE ∧
    ((ShowFrame P1 envC PLAYMODE.MODE_ENERGY [(3 : ℤ)] st1 sf1 pOut1).fields.y_data).length
        = P1.N_ROLLING_HISTORY * P1.BUFFER_SIZE ∧
    ((ShowFrame P1 envC PLAYMODE.MODE_ENERGY [(3 : ℤ)] st1 sf1 pOut1).fields.y_data)[(P1.N_ROLLING_HISTORY - 1) * P1.BUFFER_SIZE + 0]?
        = (([(3 : ℤ)] : List ℤ).map normalizeSample)[0]? :=
  ⟨by decide, by decide, by decide,
   (showFrame_rolling_buffer P1 envC PLAYMODE.MODE_ENERGY [(3 : ℤ)] st1 sf1 pOut1
      (by decide) (by decide) (by decide)).1,
   (showFrame_rolling_buffer P1 envC PLAYMODE.MODE_ENERGY [(3 : ℤ)] st1 sf1 pOut1
      (by decide) (by decide) (by decide)).2.2 0 (by decide)⟩

/-- C2: one ShowFrame invocation advances the system by exactly one frame,
performing in order: shift of the rolling buffer, one blocking capture read
of exactly BUFFER_SIZE*2 bytes with an indefinite timeout, normalization
and append of the window, the spectral transform overwriting the mel
vector, the mode dispatch, and the copy into the output light buffer. -/
theorem showFrame_one_frame_order (P : Params) (env : FrameEnv) (mode : PLAYMODE)
    (buf : List ℤ) (st : MusicLedsFields) (sf : ShowFrameStatics) (p_it : List Color) :
    (ShowFrame P env mode buf st sf p_it).trace =
      [FrameEvent.evShiftHistory, FrameEvent.evI2sRead (P.BUFFER_SIZE * 2) true,
       FrameEvent.evNormalizeIngest, FrameEvent.evT2mel, FrameEvent.evDispatch mode,
       FrameEvent.evCopyOut] ∧
    (ShowFrame P env mode buf st sf p_it).statics.bytes_read = P.BUFFER_SIZE * 2 ∧
    (ShowFrame P env mode buf st sf p_it).fields.y_data =
      ingestWindow P.BUFFER_SIZE P.N_ROLLING_HISTORY buf
        (shiftRolling P.BUFFER_SIZE P.N_ROLLING_HISTORY st.y_data) ∧
    (ShowFrame P env mode buf st sf p_it).statics.mel_data =
      env.t2mel ((ShowFrame P env mode buf st sf p_it).fields.y_data) ∧
    (ShowFrame P env mode buf st sf p_it).fields.physic_leds =
      dispatchMode env mode ((ShowFrame P env mode buf st sf p_it).statics.mel_data)
        st.physic_leds ∧
    (ShowFrame P env mode buf st sf p_it).out =
      copyOut ((ShowFrame P env mode buf st sf p_it).fields.physic_leds) p_it ∧
    (ShowFrame P env mode buf st sf p_it).statics.ii = sf.ii + P.BUFFER_SIZE :=
  ⟨rfl, rfl, rfl, rfl, rfl, rfl, rfl⟩

/-- C3: every raw sample is stored as rawSample/32768; the quotient lies in
[-1, 1] for int16 inputs, -32768 normalizes to exactly -1 and 32767 to
exactly 32767/32768. -/
theorem showFrame_normalizes_samples (P : Params) (env : FrameEnv) (mode : PLAYMODE)
    (buf : List ℤ) (st : MusicLedsFields) (sf : ShowFrameStatics) (p_it : List Color)
    (hH : 0 < P.N_ROLLING_HISTORY)
    (hy : st.y_data.length = P.N_ROLLING_HISTORY * P.BUFFER_SIZE)
    (hb : buf.length = P.BUFFER_SIZE) :
    (∀ i, i < P.BUFFER_SIZE →
      ((ShowFrame P env mode buf st sf p_it).fields.y_data)[(P.N_ROLLING_HISTORY - 1) * P.BUFFER_SIZE + i]?
        = some ((buf.getD i 0 : ℚ) / 32768)) ∧
    (∀ s : ℤ, -32768 ≤ s → s ≤ 32767 →
      -1 ≤ normalizeSample s ∧ normalizeSample s ≤ 1) ∧
    normalizeSample (-32768) = -1 ∧
    normalizeSample 32767 = 32767 / 32768 := by
  have hyd : (ShowFrame P env mode buf st sf p_it).fields.y_data
      = ingestWindow P.BUFFER_SIZE P.N_ROLLING_HISTORY buf
          (shiftRolling P.BUFFER_SIZE P.N_ROLLING_HISTORY st.y_data) := rfl
  have hs_len : (shiftRolling P.BUFFER_SIZE P.N_ROLLING_HISTORY st.y_data).length
      = P.N_ROLLING_HISTORY * P.BUFFER_SIZE := by
    rw [shiftRolling_length, hy]
  have e1 : P.BUFFER_SIZE * (P.N_ROLLING_HISTORY - 1)
      = (P.N_ROLLING_HISTORY - 1) * P.BUFFER_SIZE := Nat.mul_comm _ _
  have e2 : (P.N_ROLLING_HISTORY - 1) * P.BUFFER_SIZE + P.BUFFER_SIZE
      = P.N_ROLLING_HISTORY * P.BUFFER_SIZE := by
    obtain ⟨n, hn⟩ : ∃ n, P.N_ROLLING_HISTORY = n + 1 := ⟨P.N_ROLLING_HISTORY - 1, by omega⟩
    rw [hn, Nat.add_sub_cancel]
    ring
  refine ⟨?_, ?_, ?_, ?_⟩
  · intro i hi
    rw [hyd, ingestWindow_getElem?,
      if_pos ⟨by omega, by omega, by rw [hs_len]; omega⟩,
      show (P.N_ROLLING_HISTORY - 1) * P.BUFFER_SIZE + i
          - P.BUFFER_SIZE * (P.N_ROLLING_HISTORY - 1) = i from by omega]
    rfl
  · intro s h1 h2
    constructor
    · rw [normalizeSample, le_div_iff₀ (by norm_num)]
      have : (-32768 : ℚ) ≤ (s : ℚ) := by exact_mod_cast h1
      linarith
    · rw [normalizeSample, div_le_one (by norm_num)]
      have : (s : ℚ) ≤ 32767 := by exact_mod_cast h2
      linarith
  · norm_num [normalizeSample]
  · norm_num [normalizeSample]

/-- Witness for C3 at a one-sample window holding the raw value -2. -/
theorem showFrame_normalizes_samples_witness :
    0 < P1.N_ROLLING_HISTORY ∧
    st1.y_data.length = P1.N_ROLLING_HISTORY * P1.BUFFER_SIZE ∧
    ([(-2 : ℤ)] : List ℤ).length = P1.BUFFER_SIZE ∧
    ((ShowFrame P1 envC PLAYMODE.MODE_ENERGY [(-2 : ℤ)] st1 sf1 pOut1).fields.y_data)[(P1.N_ROLLING_HISTORY - 1) * P1.BUFFER_SIZE + 0]?
        = some ((([(-2 : ℤ)] : List ℤ).getD 0 0 : ℚ) / 32768) ∧
    normalizeSample (-32768) = -1 :=
  ⟨by decide, by decide, by decide,
   (showFrame_normalizes_samples P1 envC PLAYMODE.MODE_ENERGY [(-2 : ℤ)] st1 sf1 pOut1
      (by decide) (by decide) (by decide)).1 0 (by decide),
   (showFrame_normalizes_samples P1 envC PLAYMODE.MODE_ENERGY [(-2 : ℤ)] st1 sf1 pOut1
      (by decide) (by decide) (by decide)).2.2.1⟩

end MusicLeds

namespace MusicLeds

/-- C4: a ShowFrame invocation with a mode selector that is none of the
three recognized variants leaves `physic_leds` unchanged from the prior
frame, and invokes no visualization function (the result does not depend on
the visualizers supplied in the environment). -/
theorem showFrame_unknown_mode_noop (P : Params) (env env2 : FrameEnv) (v : ℤ)
    (buf : List ℤ) (st : MusicLedsFields) (sf : ShowFrameStatics) (p_it : List Color) :
    (ShowFrame P env (PLAYMODE.MODE_OTHER v) buf st sf p_it).fields.physic_leds
      = st.physic_leds ∧
    (env.t2mel = env2.t2mel →
      ShowFrame P env (PLAYMODE.MODE_OTHER v) buf st sf p_it
        = ShowFrame P env2 (PLAYMODE.MODE_OTHER v) buf st sf p_it) := by
  refine ⟨rfl, fun h => ?_⟩
  simp only [ShowFrame, dispatchMode, h]

/-- Witness for C4: two environments agreeing on the transform but with
different visualizers produce identical frames under an unrecognized mode. -/
theorem showFrame_unknown_mode_noop_witness :
    (ShowFrame P1 envC (PLAYMODE.MODE_OTHER 5) [0] st1 sf1 pOut1).fields.physic_leds
      = st1.physic_leds ∧
    ShowFrame P1 envC (PLAYMODE.MODE_OTHER 5) [0] st1 sf1 pOut1
      = ShowFrame P1 envD (PLAYMODE.MODE_OTHER 5) [0] st1 sf1 pOut1 :=
  ⟨(showFrame_unknown_mode_noop P1 envC envD 5 [0] st1 sf1 pOut1).1,
   (showFrame_unknown_mode_noop P1 envC envD 5 [0] st1 sf1 pOut1).2 rfl⟩

/-- C5: for each recognized mode selector, ShowFrame writes exactly
`n_pixels` entries into the supplied addressable-light buffer, each with
the white channel zero and the r, g, b channels copied verbatim from the
pixel frame. -/
theorem showFrame_recognized_mode_output (P : Params) (env : FrameEnv) (mode : PLAYMODE)
    (buf : List ℤ) (st : MusicLedsFields) (sf : ShowFrameStatics) (p_it : List Color)
    (hmode : mode = PLAYMODE.MODE_SCROLL ∨ mode = PLAYMODE.MODE_ENERGY
      ∨ mode = PLAYMODE.MODE_SPECTRUM)
    (henv : ∀ mel leds, (env.visualize_scroll mel leds).length = leds.length
      ∧ (env.visualize_energy mel leds).length = leds.length
      ∧ (env.visualize_spectrum mel leds).length = leds.length)
    (hleds : st.physic_leds.length = P.n_pixels)
    (hp : p_it.length = P.n_pixels) :
    (ShowFrame P env mode buf st sf p_it).out.length = P.n_pixels ∧
    ((ShowFrame P env mode buf st sf p_it).fields.physic_leds).length = P.n_pixels ∧
    (∀ i, i < P.n_pixels →
      (ShowFrame P env mode buf st sf p_it).out[i]? =
        some { r := (((ShowFrame P env mode buf st sf p_it).fields.physic_leds).getD i
                      { r := 0, g := 0, b := 0 }).r,
               g := (((ShowFrame P env mode buf st sf p_it).fields.physic_leds).getD i
                      { r := 0, g := 0, b := 0 }).g,
               b := (((ShowFrame P env mode buf st sf p_it).fields.physic_leds).getD i
                      { r := 0, g := 0, b := 0 }).b,
               w := 0 }) := by
  have hout : (ShowFrame P env mode buf st sf p_it).out
      = copyOut ((ShowFrame P env mode buf st sf p_it).fields.physic_leds) p_it := rfl
  have hlen : ((ShowFrame P env mode buf st sf p_it).fields.physic_leds).length = P.n_pixels := by
    rcases hmode with h | h | h <;> subst h <;>
      simp only [ShowFrame, dispatchMode]
    · rw [(henv _ _).1, hleds]
    · rw [(henv _ _).2.1, hleds]
    · rw [(henv _ _).2.2, hleds]
  refine ⟨?_, hlen, ?_⟩
  · rw [hout, copyOut_length, hp]
  · intro i hi
    rw [hout, copyOut_getElem?, if_pos (by omega)]
    rfl

/-- Witness for C5 in scroll mode with one pixel. -/
theorem showFrame_recognized_mode_output_witness :
    (ShowFrame P1 envC PLAYMODE.MODE_SCROLL [0] st1 sf1 pOut1).out.length = P1.n_pixels ∧
    ((ShowFrame P1 envC PLAYMODE.MODE_SCROLL [0] st1 sf1 pOut1).fields.physic_leds).length
      = P1.n_pixels ∧
    (ShowFrame P1 envC PLAYMODE.MODE_SCROLL [0] st1 sf1 pOut1).out[0]? =
      some { r := (((ShowFrame P1 envC PLAYMODE.MODE_SCROLL [0] st1 sf1 pOut1).fields.physic_leds).getD 0
                    { r := 0, g := 0, b := 0 }).r,
             g := (((ShowFrame P1 envC PLAYMODE.MODE_SCROLL [0] st1 sf1 pOut1).fields.physic_leds).getD 0
                    { r := 0, g := 0, b := 0 }).g,
             b := (((ShowFrame P1 envC PLAYMODE.MODE_SCROLL [0] st1 sf1 pOut1).fields.physic_leds).getD 0
                    { r := 0, g := 0, b := 0 }).b,
             w := 0 } :=
  have h := showFrame_recognized_mode_output P1 envC PLAYMODE.MODE_SCROLL [0] st1 sf1 pOut1
    (Or.inl rfl) (fun _ _ => ⟨rfl, rfl, rfl⟩) rfl rfl
  ⟨h.1, h.2.1, h.2.2 0 (by decide)⟩

/-- C8: even with an unrecognized mode selector, ShowFrame still overwrites
every entry of the external addressable-light buffer: each of its
`p_it.length` entries becomes the unchanged prior pixel-frame entry with the
white channel zero, and the produced output does not depend on the buffer's
prior contents. -/
theorem showFrame_unknown_mode_overwrites_output (P : Params) (env : FrameEnv) (v : ℤ)
    (buf : List ℤ) (st : MusicLedsFields) (sf : ShowFrameStatics) (p_it q_it : List Color)
    (hq : q_it.length = p_it.length) :
    (ShowFrame P env (PLAYMODE.MODE_OTHER v) buf st sf p_it).out.length = p_it.length ∧
    (∀ i, i < p_it.length →
      (ShowFrame P env (PLAYMODE.MODE_OTHER v) buf st sf p_it).out[i]? =
        some { r := (st.physic_leds.getD i { r := 0, g := 0, b := 0 }).r,
               g := (st.physic_leds.getD i { r := 0, g := 0, b := 0 }).g,
               b := (st.physic_leds.getD i { r := 0, g := 0, b := 0 }).b,
               w := 0 }) ∧
    (ShowFrame P env (PLAYMODE.MODE_OTHER v) buf st sf p_it).out =
      (ShowFrame P env (PLAYMODE.MODE_OTHER v) buf st sf q_it).out := by
  have hout : (ShowFrame P env (PLAYMODE.MODE_OTHER v) buf st sf p_it).out
      = copyOut st.physic_leds p_it := rfl
  have hout2 : (ShowFrame P env (PLAYMODE.MODE_OTHER v) buf st sf q_it).out
      = copyOut st.physic_leds q_it := rfl
  refine ⟨?_, ?_, ?_⟩
  · rw [hout, copyOut_length]
  · intro i hi
    rw [hout, copyOut_getElem?, if_pos hi]
    rfl
  · rw [hout, hout2]
    exact copyOut_congr st.physic_leds p_it q_it hq.symm

/-- Witness for C8 with two different one-pixel prior output buffers. -/
theorem showFrame_unknown_mode_overwrites_output_witness :
    (ShowFrame P1 envC (PLAYMODE.MODE_OTHER 9) [0] st1 sf1 pOut1).out.length = pOut1.length ∧
    (ShowFrame P1 envC (PLAYMODE.MODE_OTHER 9) [0] st1 sf1 pOut1).out[0]? =
      some { r := (st1.physic_leds.getD 0 { r := 0, g := 0, b := 0 }).r,
             g := (st1.physic_leds.getD 0 { r := 0, g := 0, b := 0 }).g,
             b := (st1.physic_leds.getD 0 { r := 0, g := 0, b := 0 }).b,
             w := 0 } ∧
    (ShowFrame P1 envC (PLAYMODE.MODE_OTHER 9) [0] st1 sf1 pOut1).out =
      (ShowFrame P1 envC (PLAYMODE.MODE_OTHER 9) [0] st1 sf1 pOut2).out :=
  have h := showFrame_unknown_mode_overwrites_output P1 envC 9 [0] st1 sf1 pOut1 pOut2
    (by decide)
  ⟨h.1, h.2.1 0 (by decide), h.2.2⟩

/-- Counterexample for C6: the mel vector and the diagnostic sample counter
live in function-local statics shared by every instance, so invoking
ShowFrame on instance A changes pipeline state that instance B's
invocations read: B's pipeline view differs after A's call. -/
theorem musicleds_shared_state_cex :
    pipelineView (stepOnA P1 envC PLAYMODE.MODE_ENERGY [0] pOut1 g1).instB
        (stepOnA P1 envC PLAYMODE.MODE_ENERGY [0] pOut1 g1).statics
      ≠ pipelineView g1.instB g1.statics := by
  intro h
  have hii := congrArg (fun t : List ℚ × List CRGB × List ℚ × ℕ => t.2.2.2) h
  simp only [pipelineView, stepOnA, ShowFrame, g1, sf1, P1] at hii
  exact absurd hii (by decide)

/-- C6 (amended): the member buffers (`y_data` and `physic_leds`) are
per-instance — a ShowFrame call on one instance leaves the other's members
unchanged — while `mel_data`, `bytes_read` and `ii` are one shared static
storage, mutated by a call on either instance (the counter advances by
BUFFER_SIZE per call, whichever instance runs). -/
theorem musicleds_member_state_isolated (P : Params) (env : FrameEnv) (mode : PLAYMODE)
    (buf : List ℤ) (p_it : List Color) (g : GlobalState) :
    (stepOnA P env mode buf p_it g).instB = g.instB ∧
    (stepOnB P env mode buf p_it g).instA = g.instA ∧
    (stepOnA P env mode buf p_it g).statics.ii = g.statics.ii + P.BUFFER_SIZE ∧
    (stepOnB P env mode buf p_it g).statics.ii = g.statics.ii + P.BUFFER_SIZE ∧
    (stepOnA P env mode buf p_it g).statics
      = (ShowFrame P env mode buf g.instA g.statics p_it).statics ∧
    (stepOnB P env mode buf p_it g).statics
      = (ShowFrame P env mode buf g.instB g.statics p_it).statics :=
  ⟨rfl, rfl, rfl, rfl, rfl, rfl⟩

/-- C7: setup issues the capture-peripheral operations in the order driver
install, pin configuration, stop, start — the stop always precedes the
start — and the configuration log line is emitted afterwards. -/
theorem setup_order_stop_then_start (n : ℕ) (ws dataIn : ℤ) :
    setup n ws dataIn =
      [I2sOp.opInstallDriver, I2sOp.opSetPin ws dataIn, I2sOp.opStop, I2sOp.opStart,
       I2sOp.opLogSetup n ws dataIn] ∧
    (∃ i j k : ℕ, i < j ∧ j < k ∧
      (setup n ws dataIn)[i]? = some I2sOp.opStop ∧
      (setup n ws dataIn)[j]? = some I2sOp.opStart ∧
      (setup n ws dataIn)[k]? = some (I2sOp.opLogSetup n ws dataIn)) :=
  ⟨rfl, ⟨2, 3, 4, by omega, by omega, rfl, rfl, rfl⟩⟩

end MusicLeds

namespace Aqi

/-- C9: the calcAQIpm10 branch guarded by `pm10 >= BIN_PM10[4] && pm10 <=
BIN_PM10[5]` is unreachable for every input because BIN_PM10[4] = 254
exceeds BIN_PM10[5] = 135; every input in (254, 424] falls to the following
branch, interpolated over the segment from 135 to 424 onto AQI 200 to 300;
and calcAQIpm10 is not monotonically non-decreasing on the non-negative
reals. -/
theorem calcAQIpm10_dead_branch_nonmonotone :
    BIN_PM10 4 = 254 ∧ BIN_PM10 5 = 135 ∧
    (∀ v : FVal, pm10guard 4 v = false) ∧
    (∀ x : ℚ, 254 < x → x ≤ 424 →
      calcAQIpm10 (FVal.val x) = ftrunc ((300 - 200) / (424 - 135) * (x - 135) + 200)) ∧
    (∃ x y : ℚ, 0 ≤ x ∧ x ≤ y ∧ calcAQIpm10 (FVal.val y) < calcAQIpm10 (FVal.val x)) := by
  refine ⟨rfl, rfl, pm10guard4_false, ?_, ?_⟩
  · intro x h1 h2
    rw [calcAQIpm10_over_254_424 x h1 h2]
    congr 1
  · exact ⟨600, 605, by norm_num, by norm_num,
      by rw [calcAQIpm10_at_600, calcAQIpm10_at_605]; norm_num⟩

/-- Witness for C9 at the input 300 of the overlap interval (254, 424]. -/
theorem calcAQIpm10_dead_branch_nonmonotone_witness :
    (254 : ℚ) < 300 ∧ (300 : ℚ) ≤ 424 ∧
    calcAQIpm10 (FVal.val 300) = ftrunc ((300 - 200) / (424 - 135) * ((300 : ℚ) - 135) + 200) :=
  ⟨by norm_num, by norm_num,
   calcAQIpm10_dead_branch_nonmonotone.2.2.2.1 300 (by norm_num) (by norm_num)⟩

/-- C10: every input outside the table range — pm25 < 0 or pm25 > 500.4 for
calcAQIpm25, pm10 < 0 or pm10 > 604 for calcAQIpm10, and NaN for both —
matches no branch of the if/else chain (its seven guards are all false)
and the function returns 0 rather than signalling an error. -/
theorem aqi_out_of_range_zero :
    (∀ x : ℚ, x < 0 ∨ 500.4 < x →
      (∀ k, 1 ≤ k → k ≤ 7 → pm25guard k (FVal.val x) = false) ∧
      calcAQIpm25 (FVal.val x) = 0) ∧
    (∀ x : ℚ, x < 0 ∨ 604 < x →
      (∀ k, 1 ≤ k → k ≤ 7 → pm10guard k (FVal.val x) = false) ∧
      calcAQIpm10 (FVal.val x) = 0) ∧
    ((∀ k, pm25guard k FVal.nan = false) ∧ calcAQIpm25 FVal.nan = 0) ∧
    ((∀ k, pm10guard k FVal.nan = false) ∧ calcAQIpm10 FVal.nan = 0) :=
  ⟨fun x hx => ⟨pm25_out_guards x hx, pm25_out_zero x hx⟩,
   fun x hx => ⟨pm10_out_guards x hx, pm10_out_zero x hx⟩,
   ⟨pm25guard_nan, calcAQIpm25_nan⟩,
   ⟨pm10guard_nan, calcAQIpm10_nan⟩⟩

/-- Witness for C10 at pm25 = -1 (below range) and pm10 = 605 (above range). -/
theorem aqi_out_of_range_zero_witness :
    ((-1 : ℚ) < 0 ∨ (500.4 : ℚ) < -1) ∧ calcAQIpm25 (FVal.val (-1)) = 0 ∧
    ((605 : ℚ) < 0 ∨ (604 : ℚ) < 605) ∧ calcAQIpm10 (FVal.val 605) = 0 :=
  ⟨Or.inl (by norm_num),
   (aqi_out_of_range_zero.1 (-1) (Or.inl (by norm_num))).2,
   Or.inr (by norm_num),
   (aqi_out_of_range_zero.2.1 605 (Or.inr (by norm_num))).2⟩

end Aqi
